import Mathlib

/-!
# glibc_compat.c : version-pinned forwarding wrappers for fcntl

Shallow embedding of `assets/lib/compat/glibc_compat.c`.

The translation unit consists of
* four `.symver` assembler directives, selected by `#ifdef __x86_64`
  (source lines 20-26), and
* two variadic functions `__wrap_fcntl` and `__wrap_fcntl64`
  (source lines 31-40 and 51-57) whose bodies are the three statements
  `va_start(va, cmd); return fcntl(fd, cmd, va_arg(va, void*)); va_end(va);`.

The C runtime library that the wrappers call into is not part of the
repository; it is a parameter (`Libc`) of every definition below.
-/

namespace GlibcCompat

/-! ## Symbols and the binding table (source lines 20-26) -/

/-- Linker-level names that occur in the translation unit. -/
inductive Name where
  | fcntl
  | fcntl64
  | __wrap_fcntl
  | __wrap_fcntl64
  deriving DecidableEq, Repr

/-- Version tags of the runtime library named in the source: the two tags
used by the `.symver` lines, and 2.28, the release that added `fcntl64`
(source comment, line 42). -/
inductive Version where
  | GLIBC_2_0
  | GLIBC_2_2_5
  | GLIBC_2_28
  deriving DecidableEq, Repr

/-- A versioned symbol reference `name@version`. -/
structure VersionedSym where
  name : Name
  version : Version
  deriving DecidableEq, Repr

/-- One assembler directive `.symver ident, name@version`. -/
structure Symver where
  ident : Name
  target : VersionedSym
  deriving DecidableEq, Repr

/-- Build configuration of the translation unit.
* `defines_x86_64`: the compiler predefines `__x86_64` (tested on line 20);
* `ptrBits`: width of `void*` on the target;
* `hdrRedirect`: `<fcntl.h>` renames the identifier `fcntl` to `fcntl64`
  ("newer glibc headers", source lines 21-22 and 43). -/
structure Target where
  defines_x86_64 : Bool
  ptrBits : Nat
  hdrRedirect : Bool
  deriving DecidableEq, Repr

/-- The `.symver` directives emitted for a target, in source order
(lines 20-26). -/
def symverDirectives (t : Target) : List Symver :=
  if t.defines_x86_64 then
    [ ⟨Name.fcntl,   ⟨Name.fcntl, Version.GLIBC_2_2_5⟩⟩,
      ⟨Name.fcntl64, ⟨Name.fcntl, Version.GLIBC_2_2_5⟩⟩ ]
  else
    [ ⟨Name.fcntl64, ⟨Name.fcntl, Version.GLIBC_2_0⟩⟩,
      ⟨Name.fcntl,   ⟨Name.fcntl, Version.GLIBC_2_0⟩⟩ ]

/-- The binding table: what a name is rebound to by the directives. -/
def binding (t : Target) (n : Name) : Option VersionedSym :=
  ((symverDirectives t).find? (fun d => d.ident == n)).map Symver.target

/-- The name the compiler emits for an identifier written in the source:
with redirecting headers the identifier `fcntl` becomes `fcntl64`. -/
def emitted (t : Target) (n : Name) : Name :=
  if t.hdrRedirect && n == Name.fcntl then Name.fcntl64 else n

/-- What a call site finally transfers control to. -/
inductive Callee where
  /-- a versioned symbol of the runtime library -/
  | versioned (s : VersionedSym)
  /-- a function defined in this translation unit -/
  | defined (n : Name)
  deriving DecidableEq, Repr

/-- The link-time name redirection described in the header comment
(lines 4-6): an unversioned reference to `fcntl` or `fcntl64` is sent by
the linker to the wrapper of that name. -/
def wrapRedirect : Name → Name
  | Name.fcntl => Name.__wrap_fcntl
  | Name.fcntl64 => Name.__wrap_fcntl64
  | n => n

/-- Resolution of an identifier called from inside this translation unit:
a name rebound by `.symver` is a versioned reference and goes straight to
the runtime library; any other reference is subject to the linker
redirection. -/
def resolve (t : Target) (ident : Name) : Callee :=
  match binding t (emitted t ident) with
  | some s => Callee.versioned s
  | none => Callee.defined (wrapRedirect (emitted t ident))

/-- The versioned symbol the identifier `fcntl` is pinned to on a target. -/
def pinned (t : Target) : VersionedSym :=
  ⟨Name.fcntl, if t.defines_x86_64 then Version.GLIBC_2_2_5 else Version.GLIBC_2_0⟩

/-- A target is a 64-bit architecture when its pointers are 64 bits wide. -/
def is64Bit (t : Target) : Prop := t.ptrBits = 64

instance (t : Target) : Decidable (is64Bit t) := by
  unfold is64Bit; infer_instance

/-- The x86-64 target (LP64). -/
def x86_64 : Target := ⟨true, 64, false⟩

/-- The 32-bit x86 target. -/
def i386 : Target := ⟨false, 32, false⟩

/-- The 64-bit ARM target: 64-bit pointers, `__x86_64` not predefined. -/
def aarch64 : Target := ⟨false, 64, false⟩

/-! ## The underlying system -/

/-- System state as seen by a caller: the out-of-band error indicator
`errno` together with the rest of the system (descriptor table etc.). -/
structure World (σ : Type) where
  errno : Int
  sys : σ

/-- One implementation of the file-control operation in the runtime
library: from descriptor, command, pointer-sized third argument and the
world before the call to the return value and the world after it;
`none` when the call never returns (for instance a blocking lock wait). -/
abbrev Impl (σ : Type) := Int → Int → Nat → World σ → Option (Int × World σ)

/-- The runtime library: an implementation for each versioned symbol. -/
abbrev Libc (σ : Type) := VersionedSym → Impl σ

/-! ## Variadic call frames -/

/-- The variadic part of a call frame: the pointer-sized slots the caller
filled (`passed`), followed by whatever the following slots happen to
contain (`residue`). -/
structure VaFrame where
  passed : List Nat
  residue : Nat → Nat

/-- Content of the `i`-th variadic slot. -/
def VaFrame.slot (f : VaFrame) (i : Nat) : Nat :=
  match f.passed.get? i with
  | some v => v
  | none => f.residue (i - f.passed.length)

/-- Frame of a three-argument invocation `f(fd, cmd, arg)`. -/
def frame3 (arg : Nat) (residue : Nat → Nat) : VaFrame := ⟨[arg], residue⟩

/-- Frame of a two-argument invocation `f(fd, cmd)`. -/
def frame2 (residue : Nat → Nat) : VaFrame := ⟨[], residue⟩

/-! ## Integers in pointer-sized storage -/

/-- Range of the C type `int`. -/
def isInt (n : Int) : Prop := -2147483648 ≤ n ∧ n < 2147483648

instance (n : Int) : Decidable (isInt n) := by
  unfold isInt; infer_instance

/-- An `int` passed in a variadic slot of `w` bits: the low 32 bits hold
the two's-complement encoding of `n`; the upper bits of a wider slot are
whatever the caller left there (`hi`). -/
def intToSlot (w : Nat) (hi : Nat) (n : Int) : Nat :=
  ((n % 4294967296).toNat + 4294967296 * hi) % 2 ^ w

/-- Conversion of a pointer-sized value back to `int`: the low 32 bits,
read as two's complement. -/
def ptrToInt (p : Nat) : Int :=
  if p % 4294967296 < 2147483648 then
    ((p % 4294967296 : Nat) : Int)
  else
    ((p % 4294967296 : Nat) : Int) - 4294967296

/-! ## Function bodies -/

/-- Argument expressions that occur in the call on lines 38 and 55. -/
inductive Arg where
  /-- the named parameter `fd` -/
  | fd
  /-- the named parameter `cmd` -/
  | cmd
  /-- the expression `va_arg(va, void*)` -/
  | va_arg_voidp
  deriving DecidableEq, Repr

/-- Statements that occur in the two function bodies. -/
inductive Stmt where
  /-- the statement `va_start(va, cmd);` -/
  | va_start
  /-- the statement `return callee(args);` -/
  | return_call (callee : Name) (args : List Arg)
  /-- the statement `va_end(va);` -/
  | va_end
  deriving DecidableEq, Repr

/-- Body of `__wrap_fcntl`, source lines 36-39. -/
def wrap_fcntl_body : List Stmt :=
  [ Stmt.va_start,
    Stmt.return_call Name.fcntl [Arg.fd, Arg.cmd, Arg.va_arg_voidp],
    Stmt.va_end ]

/-- Body of `__wrap_fcntl64`, source lines 53-56. -/
def wrap_fcntl64_body : List Stmt :=
  [ Stmt.va_start,
    Stmt.return_call Name.fcntl [Arg.fd, Arg.cmd, Arg.va_arg_voidp],
    Stmt.va_end ]

/-- The functions defined in the translation unit. -/
def bodyOf : Name → Option (List Stmt)
  | Name.__wrap_fcntl => some wrap_fcntl_body
  | Name.__wrap_fcntl64 => some wrap_fcntl64_body
  | _ => none

/-! ## Execution -/

/-- Observable steps of an execution. -/
inductive Event where
  | va_start
  | va_arg (value : Nat)
  | call (callee : Callee) (fd cmd : Int) (arg : Nat)
  | ret (value : Int)
  | va_end
  deriving DecidableEq, Repr

/-- A value of an evaluated argument. -/
inductive Val where
  | int (i : Int)
  | ptr (p : Nat)
  deriving DecidableEq, Repr

/-- How an execution of a function ends. -/
inductive Outcome (σ : Type) where
  /-- the function returned `value`, leaving the world `world` -/
  | returned (value : Int) (world : World σ) (trace : List Event)
  /-- a call into the runtime library never returned -/
  | blocked (trace : List Event)
  /-- undefined behaviour: `va_arg` or `va_end` without `va_start`, a call
  with a malformed argument list, control reaching the end of the body -/
  | undefined (trace : List Event)
  /-- the recursion budget was used up -/
  | outOfFuel (trace : List Event)

/-- Return value and final world of an execution that returned. -/
def Outcome.result {σ : Type} : Outcome σ → Option (Int × World σ)
  | Outcome.returned v w _ => some (v, w)
  | _ => none

/-- Events of an execution. -/
def Outcome.trace {σ : Type} : Outcome σ → List Event
  | Outcome.returned _ _ tr => tr
  | Outcome.blocked tr => tr
  | Outcome.undefined tr => tr
  | Outcome.outOfFuel tr => tr

/-- Prepend events to the trace of an outcome. -/
def Outcome.after {σ : Type} (pre : List Event) : Outcome σ → Outcome σ
  | Outcome.returned v w tr => Outcome.returned v w (pre ++ tr)
  | Outcome.blocked tr => Outcome.blocked (pre ++ tr)
  | Outcome.undefined tr => Outcome.undefined (pre ++ tr)
  | Outcome.outOfFuel tr => Outcome.outOfFuel (pre ++ tr)

/-- Left-to-right evaluation of an argument list. The state is the
`va_list`: `none` before `va_start`, `some i` when the next `va_arg` reads
slot `i`. Returns the values, the new `va_list` and the events, or `none`
when `va_arg` is used on a list that was not started. -/
def evalArgs (fd cmd : Int) (frame : VaFrame) :
    List Arg → Option Nat → Option (List Val × Option Nat × List Event)
  | [], va => some ([], va, [])
  | Arg.fd :: rest, va =>
      (evalArgs fd cmd frame rest va).map
        (fun r => (Val.int fd :: r.1, r.2.1, r.2.2))
  | Arg.cmd :: rest, va =>
      (evalArgs fd cmd frame rest va).map
        (fun r => (Val.int cmd :: r.1, r.2.1, r.2.2))
  | Arg.va_arg_voidp :: rest, va =>
      match va with
      | none => none
      | some i =>
          (evalArgs fd cmd frame rest (some (i + 1))).map
            (fun r => (Val.ptr (frame.slot i) :: r.1, r.2.1,
                        Event.va_arg (frame.slot i) :: r.2.2))

/-- Execution of a statement list. `invoke` performs a call to a resolved
callee; `va` is the state of the local `va_list`. Statements after a
`return` are not executed. The outgoing call has exactly three arguments,
so the callee's variadic frame holds the forwarded pointer in slot 0. -/
def execStmts {σ : Type} (t : Target)
    (invoke : Callee → Int → Int → VaFrame → World σ → Outcome σ)
    (fd cmd : Int) (frame : VaFrame) :
    List Stmt → Option Nat → World σ → Outcome σ
  | [], _, _ => Outcome.undefined []
  | Stmt.va_start :: rest, _, w =>
      (execStmts t invoke fd cmd frame rest (some 0) w).after [Event.va_start]
  | Stmt.va_end :: rest, va, w =>
      match va with
      | none => Outcome.undefined []
      | some _ =>
          (execStmts t invoke fd cmd frame rest none w).after [Event.va_end]
  | Stmt.return_call callee args :: _, va, w =>
      match evalArgs fd cmd frame args va with
      | some ([Val.int a, Val.int b, Val.ptr p], _, evs) =>
          let c := resolve t callee
          match invoke c a b (frame3 p (fun _ => 0)) w with
          | Outcome.returned v w' tr =>
              Outcome.returned v w'
                (evs ++ Event.call c a b p :: tr ++ [Event.ret v])
          | Outcome.blocked tr =>
              Outcome.blocked (evs ++ Event.call c a b p :: tr)
          | Outcome.undefined tr =>
              Outcome.undefined (evs ++ Event.call c a b p :: tr)
          | Outcome.outOfFuel tr =>
              Outcome.outOfFuel (evs ++ Event.call c a b p :: tr)
      | _ => Outcome.undefined []

/-- Call of a resolved callee with `fuel` levels of nesting available.
A versioned symbol runs the runtime library's implementation; a function
of this translation unit runs its body. -/
def callFn {σ : Type} (t : Target) (libc : Libc σ) :
    Nat → Callee → Int → Int → VaFrame → World σ → Outcome σ
  | _, Callee.versioned s, fd, cmd, frame, w =>
      match libc s fd cmd (frame.slot 0) w with
      | some (v, w') => Outcome.returned v w' []
      | none => Outcome.blocked []
  | 0, Callee.defined _, _, _, _, _ => Outcome.outOfFuel []
  | fuel + 1, Callee.defined n, fd, cmd, frame, w =>
      match bodyOf n with
      | some body => execStmts t (callFn t libc fuel) fd cmd frame body none w
      | none => Outcome.undefined []

/-- The function `__wrap_fcntl(fd, cmd, ...)`. -/
def __wrap_fcntl {σ : Type} (t : Target) (libc : Libc σ) (fuel : Nat)
    (fd cmd : Int) (frame : VaFrame) (w : World σ) : Outcome σ :=
  callFn t libc fuel (Callee.defined Name.__wrap_fcntl) fd cmd frame w

/-- The function `__wrap_fcntl64(fd, cmd, ...)`. -/
def __wrap_fcntl64 {σ : Type} (t : Target) (libc : Libc σ) (fuel : Nat)
    (fd cmd : Int) (frame : VaFrame) (w : World σ) : Outcome σ :=
  callFn t libc fuel (Callee.defined Name.__wrap_fcntl64) fd cmd frame w

/-- A direct call of the version-pinned `fcntl(fd, cmd, arg)`. -/
def pinnedFcntl {σ : Type} (t : Target) (libc : Libc σ) : Impl σ :=
  libc (pinned t)


/-- The calls made during an execution: callee, descriptor, command and
third argument of every call event, in order. -/
def calls : List Event → List (Callee × Int × Int × Nat)
  | [] => []
  | Event.call c fd cmd arg :: rest => (c, fd, cmd, arg) :: calls rest
  | _ :: rest => calls rest

/-! ## An example runtime library

A small descriptor table with the two commands named in the scenarios of
the specification. It is not part of the repository; it only serves to
instantiate the hypotheses that some theorems make about the runtime
library. -/

/-- Descriptor table: open descriptors with their descriptor flags. -/
abbrev DemoSys := List (Int × Int)

/-- Flags of an open descriptor, `none` for a closed one. -/
def demoFlags (s : DemoSys) (fd : Int) : Option Int :=
  (s.find? (fun e => e.1 == fd)).map Prod.snd

/-- Lowest number not in `used`, searching upwards from `n` for at most
`k` steps. -/
def firstFree (used : List Int) : Nat → Int → Int
  | 0, n => n
  | k + 1, n => if n ∈ used then firstFree used k (n + 1) else n

/-- Example file-control operation: command 0 duplicates the descriptor to
the lowest free number not below the `int` in the third argument, command 1
returns the descriptor flags and ignores the third argument; failures
return -1 and set the error indicator (9 for a closed descriptor, 22 for
an invalid request). -/
def demoFcntl : Impl DemoSys := fun fd cmd arg w =>
  match demoFlags w.sys fd with
  | none => some (-1, ⟨9, w.sys⟩)
  | some fl =>
      if cmd = 0 then
        if ptrToInt arg < 0 then some (-1, ⟨22, w.sys⟩)
        else
          some (firstFree (w.sys.map Prod.fst) w.sys.length (ptrToInt arg),
            ⟨w.errno,
              (firstFree (w.sys.map Prod.fst) w.sys.length (ptrToInt arg), 0)
                :: w.sys⟩)
      else if cmd = 1 then some (fl, w)
      else some (-1, ⟨22, w.sys⟩)

/-- Example runtime library: the old version tags carry `demoFcntl`; the
2.28 tag carries a different implementation that always fails with error
38, so that a call bound to the wrong version is visible. -/
def demoLibc : Libc DemoSys := fun s =>
  match s.version with
  | Version.GLIBC_2_28 => fun _ _ _ w => some (-1, ⟨38, w.sys⟩)
  | _ => demoFcntl

/-- Example world: descriptors 0 to 3 open, descriptor 3 with flag 1. -/
def demoWorld : World DemoSys := ⟨0, [(0, 0), (1, 0), (2, 0), (3, 1)]⟩

/-! ## Auxiliary lemmas -/

theorem binding_fcntl (t : Target) : binding t Name.fcntl = some (pinned t) := by
  rcases t with ⟨x, b, r⟩
  cases x <;> rfl

theorem binding_fcntl64 (t : Target) : binding t Name.fcntl64 = some (pinned t) := by
  rcases t with ⟨x, b, r⟩
  cases x <;> rfl

theorem resolve_fcntl (t : Target) :
    resolve t Name.fcntl = Callee.versioned (pinned t) := by
  rcases t with ⟨x, b, r⟩
  cases x <;> cases r <;> rfl

/-- Execution of the body shared by the two wrappers. -/
theorem exec_body {σ : Type} (t : Target) (libc : Libc σ) (fuel : Nat)
    (fd cmd : Int) (frame : VaFrame) (w : World σ) :
    execStmts t (callFn t libc fuel) fd cmd frame wrap_fcntl_body none w =
      match libc (pinned t) fd cmd (frame.slot 0) w with
      | some (v, w') =>
          Outcome.returned v w'
            [Event.va_start, Event.va_arg (frame.slot 0),
             Event.call (Callee.versioned (pinned t)) fd cmd (frame.slot 0),
             Event.ret v]
      | none =>
          Outcome.blocked
            [Event.va_start, Event.va_arg (frame.slot 0),
             Event.call (Callee.versioned (pinned t)) fd cmd (frame.slot 0)] := by
  simp only [wrap_fcntl_body, execStmts, evalArgs, Option.map, resolve_fcntl]
  cases fuel <;>
    (simp only [callFn, frame3, VaFrame.slot, List.get?]
     cases h : libc (pinned t) fd cmd (VaFrame.slot frame 0) w <;>
       simp_all [Outcome.after, VaFrame.slot])

theorem wrap_fcntl_run {σ : Type} (t : Target) (libc : Libc σ) (fuel : Nat)
    (fd cmd : Int) (frame : VaFrame) (w : World σ) :
    __wrap_fcntl t libc (fuel + 1) fd cmd frame w =
      match libc (pinned t) fd cmd (frame.slot 0) w with
      | some (v, w') =>
          Outcome.returned v w'
            [Event.va_start, Event.va_arg (frame.slot 0),
             Event.call (Callee.versioned (pinned t)) fd cmd (frame.slot 0),
             Event.ret v]
      | none =>
          Outcome.blocked
            [Event.va_start, Event.va_arg (frame.slot 0),
             Event.call (Callee.versioned (pinned t)) fd cmd (frame.slot 0)] := by
  simp only [__wrap_fcntl, callFn, bodyOf]
  exact exec_body t libc fuel fd cmd frame w

theorem wrap_fcntl64_run {σ : Type} (t : Target) (libc : Libc σ) (fuel : Nat)
    (fd cmd : Int) (frame : VaFrame) (w : World σ) :
    __wrap_fcntl64 t libc (fuel + 1) fd cmd frame w =
      match libc (pinned t) fd cmd (frame.slot 0) w with
      | some (v, w') =>
          Outcome.returned v w'
            [Event.va_start, Event.va_arg (frame.slot 0),
             Event.call (Callee.versioned (pinned t)) fd cmd (frame.slot 0),
             Event.ret v]
      | none =>
          Outcome.blocked
            [Event.va_start, Event.va_arg (frame.slot 0),
             Event.call (Callee.versioned (pinned t)) fd cmd (frame.slot 0)] := by
  simp only [__wrap_fcntl64, callFn, bodyOf]
  exact exec_body t libc fuel fd cmd frame w

theorem wrap_fcntl_result {σ : Type} (t : Target) (libc : Libc σ) (fuel : Nat)
    (fd cmd : Int) (frame : VaFrame) (w : World σ) :
    (__wrap_fcntl t libc (fuel + 1) fd cmd frame w).result =
      pinnedFcntl t libc fd cmd (frame.slot 0) w := by
  rw [wrap_fcntl_run, pinnedFcntl]
  cases h : libc (pinned t) fd cmd (frame.slot 0) w <;> simp [Outcome.result]

theorem wrap_fcntl64_result {σ : Type} (t : Target) (libc : Libc σ) (fuel : Nat)
    (fd cmd : Int) (frame : VaFrame) (w : World σ) :
    (__wrap_fcntl64 t libc (fuel + 1) fd cmd frame w).result =
      pinnedFcntl t libc fd cmd (frame.slot 0) w := by
  rw [wrap_fcntl64_run, pinnedFcntl]
  cases h : libc (pinned t) fd cmd (frame.slot 0) w <;> simp [Outcome.result]

theorem wrap_fcntl_calls {σ : Type} (t : Target) (libc : Libc σ) (fuel : Nat)
    (fd cmd : Int) (frame : VaFrame) (w : World σ) :
    calls (__wrap_fcntl t libc (fuel + 1) fd cmd frame w).trace =
      [(Callee.versioned (pinned t), fd, cmd, frame.slot 0)] := by
  rw [wrap_fcntl_run]
  cases h : libc (pinned t) fd cmd (frame.slot 0) w <;> simp [Outcome.trace, calls]

theorem wrap_fcntl64_calls {σ : Type} (t : Target) (libc : Libc σ) (fuel : Nat)
    (fd cmd : Int) (frame : VaFrame) (w : World σ) :
    calls (__wrap_fcntl64 t libc (fuel + 1) fd cmd frame w).trace =
      [(Callee.versioned (pinned t), fd, cmd, frame.slot 0)] := by
  rw [wrap_fcntl64_run]
  cases h : libc (pinned t) fd cmd (frame.slot 0) w <;> simp [Outcome.trace, calls]

theorem slot_frame3 (arg : Nat) (residue : Nat → Nat) :
    (frame3 arg residue).slot 0 = arg := rfl

theorem slot_frame2 (residue : Nat → Nat) :
    (frame2 residue).slot 0 = residue 0 := rfl

/-- An int stored in a 32- or 64-bit slot is read back unchanged, whatever
the upper bits of the slot hold. -/
theorem ptrToInt_intToSlot (w hi : Nat) (n : Int)
    (hw : w = 32 ∨ w = 64) (hn : isInt n) :
    ptrToInt (intToSlot w hi n) = n := by
  unfold isInt at hn
  unfold ptrToInt intToSlot
  rcases hw with rfl | rfl <;> norm_num <;> split <;> omega

theorem firstFree_ge (used : List Int) (k : Nat) (n : Int) :
    n ≤ firstFree used k n := by
  induction k generalizing n with
  | zero => simp [firstFree]
  | succ k ih =>
      unfold firstFree
      split
      · have := ih (n + 1)
        omega
      · exact le_refl n

theorem demoLibc_pinned (t : Target) : demoLibc (pinned t) = demoFcntl := by
  rcases t with ⟨x, b, r⟩
  cases x <;> rfl

theorem demoFcntl_dup_demoWorld (p : Nat) :
    demoFcntl 3 0 p demoWorld =
      if ptrToInt p < 0 then some (-1, ⟨22, demoWorld.sys⟩)
      else
        some (firstFree (demoWorld.sys.map Prod.fst) demoWorld.sys.length
            (ptrToInt p),
          ⟨demoWorld.errno,
            (firstFree (demoWorld.sys.map Prod.fst) demoWorld.sys.length
              (ptrToInt p), 0) :: demoWorld.sys⟩) := rfl

/-! ## The claims -/

/-- Claim C1. For every target, runtime library, descriptor, command,
pointer-sized third argument and initial world, a three-argument call of
`__wrap_fcntl` yields the return value and the error indicator of a direct
call of the version-pinned `fcntl` with the same arguments from the same
world, and the one call it makes passes `fd`, `cmd` and the argument in
these positions to the pinned symbol. -/
theorem wrap_fcntl_forwards_to_pinned {σ : Type} (t : Target) (libc : Libc σ)
    (fuel : Nat) (fd cmd : Int) (arg : Nat) (residue : Nat → Nat)
    (w : World σ) :
    ((__wrap_fcntl t libc (fuel + 1) fd cmd (frame3 arg residue) w).result.map
        (fun r => (r.1, r.2.errno)) =
      (pinnedFcntl t libc fd cmd arg w).map (fun r => (r.1, r.2.errno))) ∧
    calls (__wrap_fcntl t libc (fuel + 1) fd cmd (frame3 arg residue) w).trace =
      [(Callee.versioned (pinned t), fd, cmd, arg)] := by
  refine ⟨?_, ?_⟩
  · rw [wrap_fcntl_result, slot_frame3]
  · rw [wrap_fcntl_calls, slot_frame3]

/-- Claim C2. For every descriptor, command, call frame and initial world,
`__wrap_fcntl64` and `__wrap_fcntl` have the same outcome (return value,
error indicator, resulting world and events), and whenever they run their
result is that of the one pinned `fcntl`. -/
theorem wrap_fcntl64_eq_wrap_fcntl {σ : Type} (t : Target) (libc : Libc σ)
    (fuel : Nat) (fd cmd : Int) (frame : VaFrame) (w : World σ) :
    __wrap_fcntl64 t libc fuel fd cmd frame w =
      __wrap_fcntl t libc fuel fd cmd frame w ∧
    (__wrap_fcntl64 t libc (fuel + 1) fd cmd frame w).result =
      pinnedFcntl t libc fd cmd (frame.slot 0) w ∧
    (__wrap_fcntl t libc (fuel + 1) fd cmd frame w).result =
      pinnedFcntl t libc fd cmd (frame.slot 0) w := by
  refine ⟨?_, wrap_fcntl64_result t libc fuel fd cmd frame w,
    wrap_fcntl_result t libc fuel fd cmd frame w⟩
  cases fuel with
  | zero => rfl
  | succ k => rw [wrap_fcntl64_run, wrap_fcntl_run]

/-- Claim C3. On a target with 32- or 64-bit pointers, when the third
argument of a call of either wrapper is an int `n` (negative values
included) stored in a pointer-sized variadic slot, the one call the wrapper
makes goes to the version-pinned `fcntl` of the runtime library with `fd`,
`cmd` and exactly the slot value read by `va_arg`, the wrapper's result is
what that pinned implementation returns on this value, and the value
converts back to `n`, whatever the upper bits of the slot contain. -/
theorem int_argument_survives_forwarding {σ : Type} (t : Target)
    (libc : Libc σ) (fuel : Nat) (fd cmd n : Int) (hi : Nat)
    (residue : Nat → Nat) (w : World σ)
    (hw : t.ptrBits = 32 ∨ t.ptrBits = 64) (hn : isInt n) :
    (calls (__wrap_fcntl t libc (fuel + 1) fd cmd
        (frame3 (intToSlot t.ptrBits hi n) residue) w).trace =
        [(Callee.versioned (pinned t), fd, cmd, intToSlot t.ptrBits hi n)] ∧
     (__wrap_fcntl t libc (fuel + 1) fd cmd
        (frame3 (intToSlot t.ptrBits hi n) residue) w).result =
        libc (pinned t) fd cmd (intToSlot t.ptrBits hi n) w ∧
     (__wrap_fcntl t libc (fuel + 1) fd cmd
        (frame3 (intToSlot t.ptrBits hi n) residue) w).trace.take 3 =
        [Event.va_start, Event.va_arg (intToSlot t.ptrBits hi n),
         Event.call (Callee.versioned (pinned t)) fd cmd
           (intToSlot t.ptrBits hi n)]) ∧
    (calls (__wrap_fcntl64 t libc (fuel + 1) fd cmd
        (frame3 (intToSlot t.ptrBits hi n) residue) w).trace =
        [(Callee.versioned (pinned t), fd, cmd, intToSlot t.ptrBits hi n)] ∧
     (__wrap_fcntl64 t libc (fuel + 1) fd cmd
        (frame3 (intToSlot t.ptrBits hi n) residue) w).result =
        libc (pinned t) fd cmd (intToSlot t.ptrBits hi n) w ∧
     (__wrap_fcntl64 t libc (fuel + 1) fd cmd
        (frame3 (intToSlot t.ptrBits hi n) residue) w).trace.take 3 =
        [Event.va_start, Event.va_arg (intToSlot t.ptrBits hi n),
         Event.call (Callee.versioned (pinned t)) fd cmd
           (intToSlot t.ptrBits hi n)]) ∧
    ptrToInt (intToSlot t.ptrBits hi n) = n ∧
    (calls (__wrap_fcntl t libc (fuel + 1) fd cmd
        (frame3 (intToSlot t.ptrBits hi n) residue) w).trace).map
        (fun c => (c.1, ptrToInt c.2.2.2)) = [(Callee.versioned (pinned t), n)] ∧
    (calls (__wrap_fcntl64 t libc (fuel + 1) fd cmd
        (frame3 (intToSlot t.ptrBits hi n) residue) w).trace).map
        (fun c => (c.1, ptrToInt c.2.2.2)) = [(Callee.versioned (pinned t), n)] := by
  have hrt := ptrToInt_intToSlot t.ptrBits hi n hw hn
  have hr := wrap_fcntl_result t libc fuel fd cmd
    (frame3 (intToSlot t.ptrBits hi n) residue) w
  have hr64 := wrap_fcntl64_result t libc fuel fd cmd
    (frame3 (intToSlot t.ptrBits hi n) residue) w
  rw [slot_frame3, pinnedFcntl] at hr hr64
  have htr : (__wrap_fcntl t libc (fuel + 1) fd cmd
        (frame3 (intToSlot t.ptrBits hi n) residue) w).trace.take 3 =
        [Event.va_start, Event.va_arg (intToSlot t.ptrBits hi n),
         Event.call (Callee.versioned (pinned t)) fd cmd
           (intToSlot t.ptrBits hi n)] := by
    rw [wrap_fcntl_run, slot_frame3]
    cases h : libc (pinned t) fd cmd (intToSlot t.ptrBits hi n) w <;>
      simp [Outcome.trace]
  have htr64 : (__wrap_fcntl64 t libc (fuel + 1) fd cmd
        (frame3 (intToSlot t.ptrBits hi n) residue) w).trace.take 3 =
        [Event.va_start, Event.va_arg (intToSlot t.ptrBits hi n),
         Event.call (Callee.versioned (pinned t)) fd cmd
           (intToSlot t.ptrBits hi n)] := by
    rw [wrap_fcntl64_run, slot_frame3]
    cases h : libc (pinned t) fd cmd (intToSlot t.ptrBits hi n) w <;>
      simp [Outcome.trace]
  refine ⟨⟨?_, hr, htr⟩, ⟨?_, hr64, htr64⟩, hrt, ?_, ?_⟩
  · rw [wrap_fcntl_calls, slot_frame3]
  · rw [wrap_fcntl64_calls, slot_frame3]
  · rw [wrap_fcntl_calls, slot_frame3]
    simp [hrt]
  · rw [wrap_fcntl64_calls, slot_frame3]
    simp [hrt]

/-- Witness for claim C3: the int -5 passed on x86-64 in a slot whose upper
half holds 12345; both wrappers hand the slot value to `fcntl@GLIBC_2.2.5`
of the example runtime library and it reads back as -5. -/
theorem int_argument_survives_forwarding_witness :
    (calls (__wrap_fcntl x86_64 demoLibc 1 3 0
        (frame3 (intToSlot 64 12345 (-5)) (fun _ => 0)) demoWorld).trace =
        [(Callee.versioned (pinned x86_64), 3, 0, intToSlot 64 12345 (-5))] ∧
     (__wrap_fcntl x86_64 demoLibc 1 3 0
        (frame3 (intToSlot 64 12345 (-5)) (fun _ => 0)) demoWorld).result =
        demoLibc (pinned x86_64) 3 0 (intToSlot 64 12345 (-5)) demoWorld ∧
     (__wrap_fcntl x86_64 demoLibc 1 3 0
        (frame3 (intToSlot 64 12345 (-5)) (fun _ => 0)) demoWorld).trace.take 3 =
        [Event.va_start, Event.va_arg (intToSlot 64 12345 (-5)),
         Event.call (Callee.versioned (pinned x86_64)) 3 0
           (intToSlot 64 12345 (-5))]) ∧
    (calls (__wrap_fcntl64 x86_64 demoLibc 1 3 0
        (frame3 (intToSlot 64 12345 (-5)) (fun _ => 0)) demoWorld).trace =
        [(Callee.versioned (pinned x86_64), 3, 0, intToSlot 64 12345 (-5))] ∧
     (__wrap_fcntl64 x86_64 demoLibc 1 3 0
        (frame3 (intToSlot 64 12345 (-5)) (fun _ => 0)) demoWorld).result =
        demoLibc (pinned x86_64) 3 0 (intToSlot 64 12345 (-5)) demoWorld ∧
     (__wrap_fcntl64 x86_64 demoLibc 1 3 0
        (frame3 (intToSlot 64 12345 (-5)) (fun _ => 0)) demoWorld).trace.take 3 =
        [Event.va_start, Event.va_arg (intToSlot 64 12345 (-5)),
         Event.call (Callee.versioned (pinned x86_64)) 3 0
           (intToSlot 64 12345 (-5))]) ∧
    ptrToInt (intToSlot 64 12345 (-5)) = -5 ∧
    (calls (__wrap_fcntl x86_64 demoLibc 1 3 0
        (frame3 (intToSlot 64 12345 (-5)) (fun _ => 0)) demoWorld).trace).map
        (fun c => (c.1, ptrToInt c.2.2.2)) =
        [(Callee.versioned (pinned x86_64), -5)] ∧
    (calls (__wrap_fcntl64 x86_64 demoLibc 1 3 0
        (frame3 (intToSlot 64 12345 (-5)) (fun _ => 0)) demoWorld).trace).map
        (fun c => (c.1, ptrToInt c.2.2.2)) =
        [(Callee.versioned (pinned x86_64), -5)] :=
  int_argument_survives_forwarding x86_64 demoLibc 0 3 0 (-5) 12345
    (fun _ => 0) demoWorld (Or.inr rfl) (by unfold isInt; omega)

/-- Claim C4, as stated, fails: the 64-bit ARM target is a 64-bit
architecture, yet both names are rebound to `fcntl@GLIBC_2.0`, not to
`fcntl@GLIBC_2.2.5`. -/
theorem binding_not_by_pointer_width :
    is64Bit aarch64 ∧
    binding aarch64 Name.fcntl = some ⟨Name.fcntl, Version.GLIBC_2_0⟩ ∧
    binding aarch64 Name.fcntl64 = some ⟨Name.fcntl, Version.GLIBC_2_0⟩ ∧
    binding aarch64 Name.fcntl ≠ some ⟨Name.fcntl, Version.GLIBC_2_2_5⟩ := by
  refine ⟨rfl, rfl, rfl, ?_⟩
  decide

/-- Claim C4, amended. For every target both names `fcntl` and `fcntl64`
are rebound to the same versioned symbol; that symbol is `fcntl`, with the
tag GLIBC_2.2.5 exactly when the compiler predefines `__x86_64` and the tag
GLIBC_2.0 on every other target; no directive names another symbol. -/
theorem binding_by_x86_64 (t : Target) :
    binding t Name.fcntl = binding t Name.fcntl64 ∧
    binding t Name.fcntl =
      some ⟨Name.fcntl,
        if t.defines_x86_64 then Version.GLIBC_2_2_5 else Version.GLIBC_2_0⟩ ∧
    binding t Name.fcntl64 =
      some ⟨Name.fcntl,
        if t.defines_x86_64 then Version.GLIBC_2_2_5 else Version.GLIBC_2_0⟩ ∧
    (symverDirectives t).all (fun d => d.target.name == Name.fcntl) = true := by
  rcases t with ⟨x, b, r⟩
  cases x <;> exact ⟨rfl, rfl, rfl, rfl⟩

/-- Claim C5. Either wrapper returns the failure sentinel -1 with error
indicator `e` exactly when the pinned `fcntl`, called with the same
arguments from the same world, does; and it returns a given value with a
given error indicator exactly when the pinned `fcntl` does, so no success
becomes a failure, no failure a success, and no error code another. -/
theorem wrappers_add_no_error {σ : Type} (t : Target) (libc : Libc σ)
    (fuel : Nat) (fd cmd : Int) (arg : Nat) (residue : Nat → Nat)
    (w : World σ) (v e : Int) :
    ((∃ w', (__wrap_fcntl t libc (fuel + 1) fd cmd (frame3 arg residue) w).result
          = some (-1, w') ∧ w'.errno = e) ↔
      (∃ w', pinnedFcntl t libc fd cmd arg w = some (-1, w') ∧ w'.errno = e)) ∧
    ((∃ w', (__wrap_fcntl64 t libc (fuel + 1) fd cmd (frame3 arg residue) w).result
          = some (-1, w') ∧ w'.errno = e) ↔
      (∃ w', pinnedFcntl t libc fd cmd arg w = some (-1, w') ∧ w'.errno = e)) ∧
    ((∃ w', (__wrap_fcntl t libc (fuel + 1) fd cmd (frame3 arg residue) w).result
          = some (v, w') ∧ w'.errno = e) ↔
      (∃ w', pinnedFcntl t libc fd cmd arg w = some (v, w') ∧ w'.errno = e)) ∧
    ((∃ w', (__wrap_fcntl64 t libc (fuel + 1) fd cmd (frame3 arg residue) w).result
          = some (v, w') ∧ w'.errno = e) ↔
      (∃ w', pinnedFcntl t libc fd cmd arg w = some (v, w') ∧ w'.errno = e)) := by
  rw [wrap_fcntl_result, wrap_fcntl64_result, slot_frame3]
  exact ⟨Iff.rfl, Iff.rfl, Iff.rfl, Iff.rfl⟩

/-- Claim C6. The world after a call of either wrapper is the world after
the single direct call of the pinned `fcntl` from the same initial world,
and the wrapper carries nothing over between calls: two wrapper calls in
sequence give what two direct calls in sequence give. -/
theorem wrappers_have_no_own_effect {σ : Type} (t : Target) (libc : Libc σ)
    (fuel fuel' : Nat) (fd cmd fd' cmd' : Int) (arg arg' : Nat)
    (residue residue' : Nat → Nat) (w : World σ) :
    (__wrap_fcntl t libc (fuel + 1) fd cmd (frame3 arg residue) w).result.map
        Prod.snd = (pinnedFcntl t libc fd cmd arg w).map Prod.snd ∧
    (__wrap_fcntl64 t libc (fuel + 1) fd cmd (frame3 arg residue) w).result.map
        Prod.snd = (pinnedFcntl t libc fd cmd arg w).map Prod.snd ∧
    (__wrap_fcntl t libc (fuel + 1) fd cmd (frame3 arg residue) w).result.bind
        (fun r => (__wrap_fcntl t libc (fuel' + 1) fd' cmd'
          (frame3 arg' residue') r.2).result) =
      (pinnedFcntl t libc fd cmd arg w).bind
        (fun r => pinnedFcntl t libc fd' cmd' arg' r.2) ∧
    (__wrap_fcntl64 t libc (fuel + 1) fd cmd (frame3 arg residue) w).result.bind
        (fun r => (__wrap_fcntl64 t libc (fuel' + 1) fd' cmd'
          (frame3 arg' residue') r.2).result) =
      (pinnedFcntl t libc fd cmd arg w).bind
        (fun r => pinnedFcntl t libc fd' cmd' arg' r.2) ∧
    (__wrap_fcntl t libc (fuel + 1) fd cmd (frame3 arg residue) w).result =
      (__wrap_fcntl t libc (fuel' + 1) fd cmd (frame3 arg residue') w).result := by
  simp only [wrap_fcntl_result, wrap_fcntl64_result, slot_frame3, and_self]

/-- Claim C7. Let `F_DUPFD` be a command for which the pinned operation
reads its third argument as an int (`hint`) and, when it succeeds, returns
a descriptor not below that int (`hmin`). If the direct call with minimum
`N` succeeds with descriptor `d`, then `__wrap_fcntl(fd, F_DUPFD, N)`
returns the same `d` and the same world, and `d ≥ N`, whatever the upper
bits of the slots that carry `N` in the two calls. -/
theorem dupfd_through_wrapper {σ : Type} (t : Target) (libc : Libc σ)
    (fuel : Nat) (F_DUPFD fd N d : Int) (hi hi' : Nat) (residue : Nat → Nat)
    (w w' : World σ)
    (hw : t.ptrBits = 32 ∨ t.ptrBits = 64) (hN : isInt N)
    (hint : ∀ p q, ptrToInt p = ptrToInt q →
      pinnedFcntl t libc fd F_DUPFD p w = pinnedFcntl t libc fd F_DUPFD q w)
    (hmin : ∀ p r, pinnedFcntl t libc fd F_DUPFD p w = some r → 0 ≤ r.1 →
      ptrToInt p ≤ r.1)
    (hsucc : pinnedFcntl t libc fd F_DUPFD (intToSlot t.ptrBits hi' N) w
      = some (d, w'))
    (hd : 0 ≤ d) :
    (__wrap_fcntl t libc (fuel + 1) fd F_DUPFD
        (frame3 (intToSlot t.ptrBits hi N) residue) w).result = some (d, w') ∧
    N ≤ d := by
  have hsame : ptrToInt (intToSlot t.ptrBits hi N)
      = ptrToInt (intToSlot t.ptrBits hi' N) := by
    rw [ptrToInt_intToSlot _ _ _ hw hN, ptrToInt_intToSlot _ _ _ hw hN]
  refine ⟨?_, ?_⟩
  · rw [wrap_fcntl_result, slot_frame3, hint _ _ hsame, hsucc]
  · have h := hmin _ _ hsucc hd
    rw [ptrToInt_intToSlot _ _ _ hw hN] at h
    exact h

/-- Witness for claim C7: duplicating descriptor 3 with minimum 10 in the
example runtime library on x86-64 gives descriptor 10. -/
theorem dupfd_through_wrapper_witness :
    (__wrap_fcntl x86_64 demoLibc 1 3 0
        (frame3 (intToSlot 64 12345 10) (fun _ => 0)) demoWorld).result
      = some (10, ⟨0, (10, 0) :: demoWorld.sys⟩) ∧ (10 : Int) ≤ 10 :=
  dupfd_through_wrapper x86_64 demoLibc 0 0 3 10 10 12345 0 (fun _ => 0)
    demoWorld ⟨0, (10, 0) :: demoWorld.sys⟩ (Or.inr rfl)
    (by unfold isInt; omega)
    (by
      intro p q h
      rw [pinnedFcntl, demoLibc_pinned, demoFcntl_dup_demoWorld,
        demoFcntl_dup_demoWorld, h])
    (by
      intro p r h hr
      rw [pinnedFcntl, demoLibc_pinned, demoFcntl_dup_demoWorld] at h
      by_cases hneg : ptrToInt p < 0
      · rw [if_pos hneg] at h
        cases h
        exact absurd hr (by decide)
      · rw [if_neg hneg] at h
        cases h
        exact firstFree_ge _ _ _)
    rfl (by decide)

/-- Claim C8. Let `F_GETFD` be a command for which the pinned operation, on
the open descriptor `fd` in world `w`, returns the descriptor's flag
bitmask `flags` and leaves the world unchanged whatever its third argument
is. Then a two-argument call `__wrap_fcntl(fd, F_GETFD)` reads the absent
variadic slot, forwards what it finds there, and returns `flags`, for
every content of that slot. -/
theorem getfd_without_third_argument {σ : Type} (t : Target) (libc : Libc σ)
    (fuel : Nat) (F_GETFD fd flags : Int) (residue : Nat → Nat) (w : World σ)
    (hget : ∀ p, pinnedFcntl t libc fd F_GETFD p w = some (flags, w)) :
    (__wrap_fcntl t libc (fuel + 1) fd F_GETFD (frame2 residue) w).result
      = some (flags, w) ∧
    (__wrap_fcntl t libc (fuel + 1) fd F_GETFD (frame2 residue) w).trace =
      [Event.va_start, Event.va_arg (residue 0),
       Event.call (Callee.versioned (pinned t)) fd F_GETFD (residue 0),
       Event.ret flags] := by
  have h := hget (residue 0)
  rw [pinnedFcntl] at h
  refine ⟨?_, ?_⟩
  · rw [wrap_fcntl_result, slot_frame2, hget]
  · rw [wrap_fcntl_run, slot_frame2, h]
    rfl

/-- Witness for claim C8: reading the flags of descriptor 3 in the example
runtime library on 32-bit x86, with 77 in the absent slot. -/
theorem getfd_without_third_argument_witness :
    (__wrap_fcntl i386 demoLibc 1 3 1 (frame2 (fun _ => 77)) demoWorld).result
      = some (1, demoWorld) ∧
    (__wrap_fcntl i386 demoLibc 1 3 1 (frame2 (fun _ => 77)) demoWorld).trace =
      [Event.va_start, Event.va_arg 77,
       Event.call (Callee.versioned (pinned i386)) 3 1 77,
       Event.ret 1] :=
  getfd_without_third_argument i386 demoLibc 0 1 3 1 (fun _ => 77) demoWorld
    (fun _ => rfl)

/-- Claim C9. Every execution of either wrapper makes exactly one call; its
callee is the versioned symbol `fcntl` that the target pins, not
`__wrap_fcntl` or `__wrap_fcntl64`; one level of call nesting is enough
whatever budget is given; and the wrapper returns exactly when that one
underlying call returns. -/
theorem wrappers_call_pinned_once {σ : Type} (t : Target) (libc : Libc σ)
    (fuel : Nat) (fd cmd : Int) (frame : VaFrame) (w : World σ) :
    calls (__wrap_fcntl t libc (fuel + 1) fd cmd frame w).trace =
      [(Callee.versioned (pinned t), fd, cmd, frame.slot 0)] ∧
    calls (__wrap_fcntl64 t libc (fuel + 1) fd cmd frame w).trace =
      [(Callee.versioned (pinned t), fd, cmd, frame.slot 0)] ∧
    (pinned t).name = Name.fcntl ∧
    resolve t Name.fcntl ≠ Callee.defined Name.__wrap_fcntl ∧
    resolve t Name.fcntl ≠ Callee.defined Name.__wrap_fcntl64 ∧
    __wrap_fcntl t libc (fuel + 1) fd cmd frame w =
      __wrap_fcntl t libc 1 fd cmd frame w ∧
    __wrap_fcntl64 t libc (fuel + 1) fd cmd frame w =
      __wrap_fcntl64 t libc 1 fd cmd frame w ∧
    (__wrap_fcntl t libc (fuel + 1) fd cmd frame w).result.isSome =
      (pinnedFcntl t libc fd cmd (frame.slot 0) w).isSome ∧
    (__wrap_fcntl64 t libc (fuel + 1) fd cmd frame w).result.isSome =
      (pinnedFcntl t libc fd cmd (frame.slot 0) w).isSome := by
  refine ⟨wrap_fcntl_calls t libc fuel fd cmd frame w,
    wrap_fcntl64_calls t libc fuel fd cmd frame w, rfl, ?_, ?_, ?_, ?_, ?_, ?_⟩
  · rw [resolve_fcntl]; simp
  · rw [resolve_fcntl]; simp
  · rw [wrap_fcntl_run, wrap_fcntl_run]
  · rw [wrap_fcntl64_run, wrap_fcntl64_run]
  · rw [wrap_fcntl_result]
  · rw [wrap_fcntl64_result]

/-- Claim C10. In both bodies `va_end` is the statement after the `return`
statement, and no execution reaches it: the events of every execution of
either wrapper are `va_start`, one `va_arg` read, one call of the pinned
`fcntl` and, when that call returns, the return; `va_end` occurs in no
execution although `va_start` occurs once. -/
theorem va_end_is_never_executed {σ : Type} (t : Target) (libc : Libc σ)
    (fuel : Nat) (fd cmd : Int) (frame : VaFrame) (w : World σ) :
    wrap_fcntl_body =
      [Stmt.va_start,
       Stmt.return_call Name.fcntl [Arg.fd, Arg.cmd, Arg.va_arg_voidp],
       Stmt.va_end] ∧
    wrap_fcntl64_body =
      [Stmt.va_start,
       Stmt.return_call Name.fcntl [Arg.fd, Arg.cmd, Arg.va_arg_voidp],
       Stmt.va_end] ∧
    (__wrap_fcntl t libc (fuel + 1) fd cmd frame w).trace =
      [Event.va_start, Event.va_arg (frame.slot 0),
       Event.call (Callee.versioned (pinned t)) fd cmd (frame.slot 0)] ++
      (match pinnedFcntl t libc fd cmd (frame.slot 0) w with
       | some r => [Event.ret r.1]
       | none => []) ∧
    (__wrap_fcntl64 t libc (fuel + 1) fd cmd frame w).trace =
      [Event.va_start, Event.va_arg (frame.slot 0),
       Event.call (Callee.versioned (pinned t)) fd cmd (frame.slot 0)] ++
      (match pinnedFcntl t libc fd cmd (frame.slot 0) w with
       | some r => [Event.ret r.1]
       | none => []) ∧
    (__wrap_fcntl t libc (fuel + 1) fd cmd frame w).trace.count Event.va_end = 0 ∧
    (__wrap_fcntl64 t libc (fuel + 1) fd cmd frame w).trace.count Event.va_end
      = 0 ∧
    (__wrap_fcntl t libc (fuel + 1) fd cmd frame w).trace.count Event.va_start
      = 1 ∧
    (__wrap_fcntl64 t libc (fuel + 1) fd cmd frame w).trace.count Event.va_start
      = 1 := by
  rw [wrap_fcntl_run, wrap_fcntl64_run, pinnedFcntl]
  cases h : libc (pinned t) fd cmd (frame.slot 0) w <;>
    simp [Outcome.trace, wrap_fcntl_body, wrap_fcntl64_body]

end GlibcCompat
